import Mathlib

/-!
Shallow embedding of the prerender-deno middleware (src/unnamed/part_000 and
src/constants.ts): a Prerenderer class whose `prerender` method decides, per
request, whether to serve a prerendered snapshot, resolving a cache, calling
a rendering backend and writing the cache.  JavaScript runtime values are
modelled explicitly: a nullable string is `Option String`, JS truthiness of
such a value is `jsTruthy`, plain JS objects used as string maps are
association lists with in-place key update (`objSet`), and the web `Headers`
object of the incoming request is a list of lowercase-name/value pairs in
iteration order.
-/

namespace Prerender

/-- JS truthiness of a `string | null | undefined` value: null/undefined and
the empty string are falsy, every other string is truthy. -/
def jsTruthy : Option String → Bool
  | none => false
  | some s => s != ""

/-- `s.toLowerCase()` realised over the character list (the inputs involved
are ASCII, where the JS and Lean character lowercasing agree). -/
def strToLower (s : String) : String :=
  String.mk (s.toList.map Char.toLower)

/-- `s.startsWith(pre)` realised over character lists. -/
def strStartsWith (s pre : String) : Bool :=
  pre.toList.isPrefixOf s.toList

/-- `s.endsWith(suffix)` realised over character lists. -/
def strEndsWith (s suffix : String) : Bool :=
  suffix.toList.reverse.isPrefixOf s.toList.reverse

/-- `s.substring(n)` realised over character lists. -/
def strDrop (s : String) (n : Nat) : String :=
  String.mk (s.toList.drop n)

/-- Does the needle occur as a contiguous sublist of the haystack? -/
def listIncludes (needle : List Char) : List Char → Bool
  | [] => needle.isEmpty
  | c :: t => needle.isPrefixOf (c :: t) || listIncludes needle t

/-- `hay.indexOf(needle) !== -1` on JS strings: substring containment. -/
def jsIncludes (hay needle : String) : Bool :=
  listIncludes needle.toList hay.toList

/-- `JSON.stringify`-style string maps with possibly-null values: a plain JS
object whose keys are strings, in insertion order. -/
abbrev HeaderObj := List (String × Option String)

/-- JS object property assignment `obj[k] = v`: replace in place if the key
exists, else append (insertion order is preserved). -/
def objSet : HeaderObj → String → Option String → HeaderObj
  | [], k, v => [(k, v)]
  | (k', v') :: t, k, v =>
    if k' == k then (k', v) :: t else (k', v') :: objSet t k v

/-- JS object property read `obj[k]`. -/
def objGet : HeaderObj → String → Option (Option String)
  | [], _ => none
  | (k', v') :: t, k => if k' == k then some v' else objGet t k

/-- The URL object of an incoming request (`request.url` in oak): its full
href, pathname, search string and parsed search parameters. -/
structure Url where
  href : String
  pathname : String
  search : String
  searchParams : List (String × String) := []
deriving DecidableEq, Repr

/-- An incoming request descriptor: method, URL, and the `Headers` object as
a list of (lowercase name, value) pairs in the iteration order used by
`Headers.prototype.forEach` (the web API iterates names lowercased, in
sorted order; concrete inputs below are given already in that form). -/
structure Req where
  method : String
  headers : List (String × String)
  url : Url
deriving DecidableEq, Repr

/-- `request.headers.get(name)`: case-insensitive lookup, null when the
header is absent. -/
def headersGet (req : Req) (name : String) : Option String :=
  List.lookup (strToLower name) req.headers

/-- `URLSearchParams.get(name)`: the first value for the name, else null. -/
def searchParamsGet (ps : List (String × String)) (name : String) :
    Option String :=
  (ps.find? (fun p => p.1 == name)).map (fun p => p.2)

/-- CRAWLER_USER_AGENTS from src/constants.ts. -/
def CRAWLER_USER_AGENTS : List String :=
  ["googlebot", "Google-InspectionTool", "Yahoo! Slurp", "bingbot",
   "yandex", "baiduspider", "facebookexternalhit", "twitterbot",
   "rogerbot", "linkedinbot", "embedly", "quora link preview",
   "showyoubot", "outbrain", "pinterest/0.",
   "developers.google.com/+/web/snippet", "slackbot", "vkShare",
   "W3C_Validator", "redditbot", "Applebot", "WhatsApp", "flipboard",
   "tumblr", "bitlybot", "SkypeUriPreview", "nuzzel", "Discordbot",
   "Google Page Speed", "Qwantify", "pinterestbot",
   "Bitrix link preview", "XING-contenttabreceiver", "Chrome-Lighthouse",
   "TelegramBot", "SeznamBot", "screaming frog SEO spider", "AhrefsBot",
   "AhrefsSiteAudit", "Iframely"]

/-- EXTENSIONS_TO_IGNORE from src/constants.ts. -/
def EXTENSIONS_TO_IGNORE : List String :=
  [".js", ".css", ".xml", ".less", ".png", ".jpg", ".jpeg", ".gif",
   ".pdf", ".doc", ".txt", ".ico", ".rss", ".zip", ".mp3", ".rar",
   ".exe", ".wmv", ".doc", ".avi", ".ppt", ".mpg", ".mpeg", ".tif",
   ".wav", ".mov", ".psd", ".ai", ".xls", ".mp4", ".m4a", ".swf",
   ".dat", ".dmg", ".iso", ".flv", ".m4v", ".torrent", ".woff",
   ".woff2", ".ttf", ".svg", ".webmanifest", ".webp"]

/-- `new RegExp(pattern).test(s)` for the fragment of JS regular expressions
actually exercised by the configuration values in the claims: a pattern made
of literal characters, with an optional leading start anchor.  An anchored
pattern tests a prefix; an unanchored one tests substring containment. -/
def regexTest (pattern s : String) : Bool :=
  if strStartsWith pattern "^" then strStartsWith s (strDrop pattern 1)
  else jsIncludes s pattern

/-- A top-level value of the `PrerenderOptions` map (fetch options): either
a scalar (modelled as a string; the override semantics the claims are about
do not depend on the scalar payload) or a headers sub-object. -/
inductive TopVal where
  | str (s : String)
  | hobj (h : HeaderObj)
deriving DecidableEq, Repr

/-- A plain JS object used as a fetch-options map, in insertion order. -/
abbrev TopMap := List (String × TopVal)

/-- `obj[k] = v` on a fetch-options map. -/
def topSet : TopMap → String → TopVal → TopMap
  | [], k, v => [(k, v)]
  | (k', v') :: t, k, v =>
    if k' == k then (k', v) :: t else (k', v') :: topSet t k v

/-- `obj[k]` on a fetch-options map. -/
def topGet : TopMap → String → Option TopVal
  | [], _ => none
  | (k', v') :: t, k => if k' == k then some v' else topGet t k

/-- Does the map own the key? -/
def topHas (m : TopMap) (k : String) : Bool :=
  (topGet m k).isSome

/-- `Object.assign(target, source)` on fetch-options maps: every own key of
the source is assigned onto the target, in source order. -/
def topAssign (target source : TopMap) : TopMap :=
  source.foldl (fun acc p => topSet acc p.1 p.2) target

/-- The Prerenderer configuration state: the public fields and setter-backed
lists of the class, with the defaults of the source.  `whitelist` and
`blacklist` are `none` when never set (the setters always store arrays). -/
structure Config where
  forwardHeaders : Bool := false
  prerenderToken : String := ""
  prerenderServiceUrl : String := "http://service.prerender.io/"
  prerenderServerRequestOptions : TopMap := []
  whitelist : Option (List String) := none
  blacklist : Option (List String) := none
deriving Repr

/-- `shouldShowPrerenderedPage` (part_000 lines 111-184), translated check
by check.  Note the user-agent guard and the x-prerender guard use JS
truthiness, the crawler test lowercases both sides, the whitelist tests
every pattern against the full `request.url.href`, and the blacklist also
tests a truthy referer header. -/
def shouldShowPrerenderedPage (cfg : Config) (req : Req) : Bool :=
  let userAgent := headersGet req "user-agent"
  let bufferAgent := headersGet req "x-bufferbot"
  if !(jsTruthy userAgent) then false
  else if req.method != "GET" && req.method != "HEAD" then false
  else if jsTruthy (headersGet req "x-prerender") then false
  else
    let ua := userAgent.getD ""
    let flag :=
      jsTruthy (searchParamsGet req.url.searchParams "_escaped_fragment_")
      || CRAWLER_USER_AGENTS.any
           (fun c => jsIncludes (strToLower ua) (strToLower c))
      || jsTruthy bufferAgent
    if EXTENSIONS_TO_IGNORE.any
         (fun ext => strEndsWith (strToLower req.url.pathname) ext) then false
    else if (match cfg.whitelist with
             | some ws =>
               ws.all (fun w => regexTest w req.url.href == false)
             | none => false) then false
    else if (match cfg.blacklist with
             | some bs =>
               bs.any (fun b =>
                 regexTest b req.url.href
                 || (match headersGet req "referer" with
                     | some r =>
                       if jsTruthy (some r) then regexTest b r else false
                     | none => false))
             | none => false) then false
    else flag

/-- JS `a || b` over nullable strings: the first truthy operand, else the
last operand. -/
def jsOrOpt (a b : Option String) : Option String :=
  if jsTruthy a then a else b

/-- A JS template literal slot: null prints as the text null. -/
def jsStringOf : Option String → String
  | none => "null"
  | some s => s

/-- The URL string the source reconstructs from protocol, host, pathname and
search via a `new URL` object.  For a syntactically plain host, pathname and
search (no normalisation or percent-encoding needed, the case of every
input in the claims), `url.toString()` is exactly this concatenation. -/
def reconstructedUrl (req : Req) : String :=
  "https://" ++ jsStringOf
      (jsOrOpt (headersGet req "x-forwarded-host") (headersGet req "host"))
    ++ req.url.pathname ++ req.url.search

/-- `buildApiUrl` (part_000 lines 53-77).  The separator test
`prerenderUrl.indexOf(slash, prerenderUrl.length - 1) !== -1` holds exactly
when the last character of the base is a path separator. -/
def buildApiUrl (cfg : Config) (req : Req) : String :=
  let prerenderUrl := cfg.prerenderServiceUrl
  let forwardSlash := if strEndsWith prerenderUrl "/" then "" else "/"
  prerenderUrl ++ forwardSlash ++ reconstructedUrl req

/-- The headers object that the local variable `headers` of
`getPrerenderedPageResponse` points to after all mutations (part_000 lines
193, 200-213): the object starts empty; with `forwardHeaders` set, the
`Headers.forEach` callback receives the header VALUE as its first argument,
so each write uses the value as the key and looks the value up as a header
name; then the always-set assignments follow. -/
def mutatedHeaders (cfg : Config) (req : Req) : HeaderObj :=
  let base : HeaderObj := []
  let forwarded :=
    if cfg.forwardHeaders then
      req.headers.foldl
        (fun acc p =>
          if p.2 == "host" then acc
          else objSet acc p.2 (headersGet req p.2))
        base
    else base
  let withUA := objSet forwarded "User-Agent" (headersGet req "user-agent")
  let withAE := objSet withUA "Accept-Encoding" (some "gzip")
  if cfg.prerenderToken != "" then
    objSet withAE "X-Prerender-Token" (some cfg.prerenderToken)
  else withAE

/-- The second argument of the `fetch` call (part_000 lines 192-219):
`options` starts as the single-key object holding a fresh empty headers
object, the deep copy of `prerenderServerRequestOptions` is assigned onto
it, and finally a fresh object receives `options` and then the fixed GET
method.  The local `headers` variable was bound to the ORIGINAL empty
headers object before the assign, so when the configured extra options own
a headers key, that copied value replaces the original in `options` and the
mutations of `mutatedHeaders` are lost; only when the extras own no headers
key do the mutations reach the sent object. -/
def fetchOptions (cfg : Config) (req : Req) : TopMap :=
  let extras := cfg.prerenderServerRequestOptions
  let afterAssign := topAssign [("headers", TopVal.hobj [])] extras
  let options :=
    if topHas extras "headers" then afterAssign
    else topSet afterAssign "headers" (TopVal.hobj (mutatedHeaders cfg req))
  topAssign (topAssign [] options) [("method", TopVal.str "GET")]

/-- A JS Error value: only its message is observed by the source. -/
structure JsError where
  message : String
deriving DecidableEq, Repr

/-- An upstream HTTP response as far as the source observes it before
reading its body: just a status code, which the source never inspects. -/
structure HttpResponse where
  status : Nat
deriving DecidableEq, Repr

/-- The result type of `getPrerenderedPageResponse`. -/
structure RetrievalResult where
  error : Option String
  body : Option String
deriving DecidableEq, Repr

/-- `getPrerenderedPageResponse` (part_000 lines 186-227).  The transport is
abstracted by two oracles: `fetchO` for the awaited `fetch` call (applied to
the built URL and options) and `textO` for the awaited `response.text()`
read; a `.error` value of either models the awaited promise rejecting.  The
whole body runs inside one try/catch whose handler returns
`{ error: error.message, body: null }`, so every fault is converted and the
function is total: no exception propagates. -/
def getPrerenderedPageResponse (cfg : Config) (req : Req)
    (fetchO : String → TopMap → Except JsError HttpResponse)
    (textO : HttpResponse → Except JsError String) : RetrievalResult :=
  match fetchO (buildApiUrl cfg req) (fetchOptions cfg req) with
  | .error e => { error := some e.message, body := none }
  | .ok resp =>
    match textO resp with
    | .error e => { error := some e.message, body := none }
    | .ok t => { error := none, body := some t }

/-- The result of the configured cache read hook:
`{ body: string, error?: string }`. -/
structure CacheOutcome where
  body : String
  error : Option String := none
deriving DecidableEq, Repr

/-- The options a cache write hook may return: `{ cancelRender: boolean }`. -/
structure AfterRenderOptions where
  cancelRender : Bool
deriving DecidableEq, Repr

/-- The per-request behaviour of the optional hooks and of the retrieval
step, abstracting the awaited calls of `prerender`: `resolveResult` is the
read hook result when a read hook is configured (`none` means no hook),
`writeResult` is `none` when no write hook is configured, `some none` when
the hook returns void, and `some (some a)` when it returns options `a`;
`retrievalResult` is what `getPrerenderedPageResponse` returns when
invoked. -/
structure HookBehavior where
  resolveResult : Option CacheOutcome := none
  writeResult : Option (Option AfterRenderOptions) := none
  retrievalResult : RetrievalResult := { error := none, body := none }
deriving DecidableEq, Repr

/-- The terminal outcome of one `prerender` call: delegate to the `next`
continuation, return a body value, or throw an Error with a message. -/
inductive Outcome where
  | next
  | ret (body : Option String)
  | thrown (message : String)
deriving DecidableEq, Repr

/-- Which awaited steps ran during one `prerender` call. -/
structure Trace where
  retrieverCalled : Bool
  writeCalled : Bool
deriving DecidableEq, Repr

/-- The cache short-circuit of `prerender` (part_000 lines 84-91): with a
read hook configured, a falsy error together with a truthy body is a hit
and yields that body. -/
def cacheHit (hb : HookBehavior) : Option String :=
  match hb.resolveResult with
  | some co =>
    if !(jsTruthy co.error) && co.body != "" then some co.body else none
  | none => none

/-- `(await this._writeCache?.(...)) ?? { cancelRender: false }` (part_000
lines 95-99): an absent hook or a void return defaults cancelRender to
false. -/
def writeCancel (hb : HookBehavior) : Bool :=
  match hb.writeResult with
  | some (some a) => a.cancelRender
  | _ => false

/-- `prerender` (part_000 lines 79-109): classifier gate, cache
short-circuit, retrieval, cache write with cancellation, then throw on a
truthy error else return the body.  Returns the outcome together with the
trace of which awaited steps ran. -/
def prerender (cfg : Config) (hb : HookBehavior) (req : Req) :
    Outcome × Trace :=
  if shouldShowPrerenderedPage cfg req = false then
    (Outcome.next, ⟨false, false⟩)
  else
    match cacheHit hb with
    | some b => (Outcome.ret (some b), ⟨false, false⟩)
    | none =>
      let r := hb.retrievalResult
      let tr : Trace := ⟨true, hb.writeResult.isSome⟩
      if writeCancel hb then (Outcome.next, tr)
      else if jsTruthy r.error then (Outcome.thrown (r.error.getD ""), tr)
      else (Outcome.ret r.body, tr)

/-! Concrete fixtures used by the instance theorems and witnesses. -/

/-- A GET request from a crawler user-agent to a non-asset path, with no
x-prerender header: eligible under the default configuration. -/
def reqCrawler : Req :=
  { method := "GET"
  , headers := [("host", "example.com"), ("user-agent", "googlebot")]
  , url := { href := "https://example.com/app"
           , pathname := "/app", search := "" } }

/-- Extra outbound-request options owning a headers sub-mapping whose
User-Agent entry conflicts with the always-set one. -/
def cfgConflict : Config :=
  { prerenderToken := "tok"
  , prerenderServerRequestOptions :=
      [("headers", TopVal.hobj [("User-Agent", some "spoofed")])] }

/-- A render token configured, no extra outbound-request options. -/
def cfgToken : Config := { prerenderToken := "tok" }

/-- Header forwarding enabled, nothing else configured. -/
def cfgForward : Config := { forwardHeaders := true }

/-- A crawler request carrying an accept header besides host and
user-agent (header names lowercase, in Headers iteration order). -/
def reqForward : Req :=
  { method := "GET"
  , headers := [("accept", "text/html"), ("host", "example.com"),
                ("user-agent", "googlebot")]
  , url := { href := "https://example.com/p"
           , pathname := "/p", search := "" } }

/-- The whitelist of claim C3. -/
def cfgWhitelistPublic : Config := { whitelist := some ["^/public/"] }

/-- A crawler GET request to /public/x. -/
def reqPublic : Req :=
  { method := "GET"
  , headers := [("host", "example.com"), ("user-agent", "googlebot")]
  , url := { href := "https://example.com/public/x"
           , pathname := "/public/x", search := "" } }

/-- A crawler GET request to /private/x. -/
def reqPrivate : Req :=
  { method := "GET"
  , headers := [("host", "example.com"), ("user-agent", "googlebot")]
  , url := { href := "https://example.com/private/x"
           , pathname := "/private/x", search := "" } }

/-- A zero-length whitelist array. -/
def cfgEmptyWhitelist : Config := { whitelist := some [] }

/-- Write hook returning cancelRender true, after a failed retrieval. -/
def hbCancelErr : HookBehavior :=
  { writeResult := some (some ⟨true⟩)
  , retrievalResult := { error := some "boom", body := none } }

/-- No hooks, retrieval failed with a non-empty message. -/
def hbErrNoHook : HookBehavior :=
  { retrievalResult := { error := some "boom", body := none } }

/-- No hooks, retrieval produced a non-null but EMPTY error string. -/
def hbEmptyErr : HookBehavior :=
  { retrievalResult := { error := some "", body := none } }

/-- A read hook hitting with a non-empty body and no error. -/
def hbHit : HookBehavior :=
  { resolveResult := some { body := "<html>" } }

/-- A read hook missing (empty body), then a successful retrieval. -/
def hbMiss : HookBehavior :=
  { resolveResult := some { body := "" }
  , retrievalResult := { error := none, body := some "x" } }

/-- A fetch oracle that always yields a status-500 response. -/
def fetchOk500 : String → TopMap → Except JsError HttpResponse :=
  fun _ _ => Except.ok { status := 500 }

/-- A text oracle that always yields a fixed body. -/
def textOkHtml : HttpResponse → Except JsError String :=
  fun _ => Except.ok "<html>"

/-- The service base of claim C9, without a trailing separator. -/
def cfgSvc : Config := { prerenderServiceUrl := "http://svc" }

/-- The same service base with a trailing separator. -/
def cfgSvcSlash : Config := { prerenderServiceUrl := "http://svc/" }

/-- The request of claim C9: path /a, query b=1, x-forwarded-host host. -/
def reqFwdHost : Req :=
  { method := "GET"
  , headers := [("host", "origin"), ("user-agent", "googlebot"),
                ("x-forwarded-host", "host")]
  , url := { href := "https://host/a?b=1"
           , pathname := "/a", search := "?b=1" } }

/-! Helper lemmas. -/

/-- Reading back the key just assigned yields the assigned value. -/
theorem topGet_topSet_self (m : TopMap) (k : String) (v : TopVal) :
    topGet (topSet m k v) k = some v := by
  induction m with
  | nil => simp [topSet, topGet]
  | cons p t ih =>
    by_cases h : p.1 == k
    · simp [topSet, topGet, h]
    · simp [topSet, topGet, h, ih]

/-- The retrieval step of `prerender` runs exactly when the classifier
accepts and the cache read does not hit. -/
theorem retrieverCalled_iff (cfg : Config) (hb : HookBehavior) (req : Req) :
    (prerender cfg hb req).2.retrieverCalled = true ↔
      (shouldShowPrerenderedPage cfg req = true ∧ cacheHit hb = none) := by
  cases h : shouldShowPrerenderedPage cfg req <;> cases hc : cacheHit hb
  · simp [prerender, h, hc]
  · simp [prerender, h, hc]
  · simp only [prerender, h, hc]
    split
    · simp_all
    · split
      · simp
      · split <;> simp
  · simp [prerender, h, hc]

/-! Claim theorems. -/

/-- C1: the claim says the always-set headers (User-Agent of the incoming
request, Accept-Encoding gzip, the token header) win over a conflicting
headers sub-mapping of the configured extra options.  The code disagrees:
the local headers object is captured before the extras are assigned, so a
configured headers sub-mapping replaces it and the always-set writes are
lost entirely.  This theorem evaluates the code at the failing input: with
extras owning a conflicting headers sub-mapping the sent headers are
exactly the configured ones, while without such a sub-mapping the
always-set headers are present as the claim expects. -/
theorem c1_alwaysSetHeaders_lost_on_conflict :
    topGet (fetchOptions cfgConflict reqCrawler) "headers"
      = some (TopVal.hobj [("User-Agent", some "spoofed")])
    ∧ topGet (fetchOptions cfgToken reqCrawler) "headers"
      = some (TopVal.hobj
          [("User-Agent", some "googlebot"),
           ("Accept-Encoding", some "gzip"),
           ("X-Prerender-Token", some "tok")]) :=
  ⟨rfl, rfl⟩

/-- C2: the claim says forwarding copies every incoming header except host
under its own name and value.  The code disagrees: the Headers.forEach
callback receives the header VALUE as its first argument, so the entries
written are keyed by the values, each mapped to a null lookup, and the
host header is skipped only when its VALUE is the string host.  This
theorem evaluates the code at the failing input: the forwarded-name entry
for accept is absent and the produced object is keyed by values. -/
theorem c2_forwarding_uses_values_as_names :
    mutatedHeaders cfgForward reqForward
      = [("text/html", none), ("example.com", none), ("googlebot", none),
         ("User-Agent", some "googlebot"), ("Accept-Encoding", some "gzip")]
    ∧ objGet (mutatedHeaders cfgForward reqForward) "accept" = none :=
  ⟨rfl, rfl⟩

/-- C3 counterexample: with whitelist ["^/public/"], the claim says the
crawler GET request to /public/x is eligible; the code rejects it, because
each whitelist pattern is tested against the full request URL href, which
begins with the scheme and therefore never matches the anchored pattern. -/
theorem c3_public_not_eligible :
    shouldShowPrerenderedPage cfgWhitelistPublic reqPublic = false :=
  rfl

/-- C3 amended: with whitelist ["^/public/"] and no blacklist, the crawler
GET request to /private/x is not eligible, and the crawler GET request to
/public/x is ALSO not eligible, since whitelist patterns are matched
against the full request URL href. -/
theorem c3_whitelist_matches_href :
    shouldShowPrerenderedPage cfgWhitelistPublic reqPrivate = false
    ∧ shouldShowPrerenderedPage cfgWhitelistPublic reqPublic = false :=
  ⟨rfl, rfl⟩

/-- C4: whenever the retrieval step ran and the write hook returned
cancelRender true, the outcome of `prerender` is delegation to the next
continuation, regardless of the retrieval error. -/
theorem c4_cancelRender_delegates (cfg : Config) (hb : HookBehavior)
    (req : Req)
    (hcall : (prerender cfg hb req).2.retrieverCalled = true)
    (hw : hb.writeResult = some (some ⟨true⟩)) :
    (prerender cfg hb req).1 = Outcome.next := by
  obtain ⟨hs, hc⟩ := (retrieverCalled_iff cfg hb req).mp hcall
  have hwc : writeCancel hb = true := by simp [writeCancel, hw]
  simp [prerender, hs, hc, hwc]

/-- C4 witness: a failed retrieval whose write hook cancels still ends in
delegation. -/
theorem c4_witness :
    hbCancelErr.retrievalResult.error = some "boom"
    ∧ (prerender {} hbCancelErr reqCrawler).1 = Outcome.next :=
  ⟨rfl, c4_cancelRender_delegates {} hbCancelErr reqCrawler rfl rfl⟩

/-- C5 counterexample: the claim says any NON-NULL retrieval error with no
cancelling write hook is re-thrown.  The code tests JS truthiness, so the
non-null empty error string is treated as success: at this input the
retrieval step ran, no write hook exists, the error is the non-null empty
string, and the outcome is returning the null body, not a thrown
failure. -/
theorem c5_empty_error_not_thrown :
    (prerender {} hbEmptyErr reqCrawler).2.retrieverCalled = true
    ∧ hbEmptyErr.writeResult = none
    ∧ hbEmptyErr.retrievalResult.error = some ""
    ∧ (prerender {} hbEmptyErr reqCrawler).1 = Outcome.ret none :=
  ⟨rfl, rfl, rfl, rfl⟩

/-- C5 amended: whenever the retrieval step ran, its error is non-null and
NON-EMPTY, and the write hook is absent, returns no value, or returns
cancelRender false, the outcome of `prerender` is a thrown failure carrying
exactly that error message (in particular the continuation is not the
outcome). -/
theorem c5_error_propagates (cfg : Config) (hb : HookBehavior) (req : Req)
    (e : String)
    (hcall : (prerender cfg hb req).2.retrieverCalled = true)
    (he : hb.retrievalResult.error = some e) (hne : e ≠ "")
    (hw : hb.writeResult = none ∨ hb.writeResult = some none
          ∨ hb.writeResult = some (some ⟨false⟩)) :
    (prerender cfg hb req).1 = Outcome.thrown e := by
  obtain ⟨hs, hc⟩ := (retrieverCalled_iff cfg hb req).mp hcall
  have hwc : writeCancel hb = false := by
    rcases hw with h | h | h <;> simp [writeCancel, h]
  have ht : jsTruthy (some e) = true := by simp [jsTruthy, hne]
  simp [prerender, hs, hc, hwc, ht, he]

/-- C5 witness: a failed retrieval with message boom and no write hook ends
in a thrown failure carrying boom. -/
theorem c5_witness :
    (prerender {} hbErrNoHook reqCrawler).1 = Outcome.thrown "boom" :=
  c5_error_propagates {} hbErrNoHook reqCrawler "boom" rfl rfl
    (by decide) (Or.inl rfl)

/-- C6: with the classifier accepting and a read hook configured, a falsy
error (the !error test of the source) together with a non-empty body is a
hit: `prerender` returns that body with neither the retrieval step nor the
write hook invoked; a truthy error or an empty body is a miss and the
retrieval step runs. -/
theorem c6_cache_hit_short_circuits (cfg : Config) (hb : HookBehavior)
    (req : Req) (co : CacheOutcome)
    (hs : shouldShowPrerenderedPage cfg req = true)
    (hr : hb.resolveResult = some co) :
    ((jsTruthy co.error = false ∧ co.body ≠ "") →
      prerender cfg hb req = (Outcome.ret (some co.body), ⟨false, false⟩))
    ∧ ((jsTruthy co.error = true ∨ co.body = "") →
      (prerender cfg hb req).2.retrieverCalled = true) := by
  constructor
  · rintro ⟨he, hbod⟩
    have hhit : cacheHit hb = some co.body := by
      simp [cacheHit, hr, he, hbod]
    simp [prerender, hs, hhit]
  · intro hmiss
    have hnone : cacheHit hb = none := by
      rcases hmiss with h | h <;> simp [cacheHit, hr, h]
    exact (retrieverCalled_iff cfg hb req).mpr ⟨hs, hnone⟩

/-- C6 witness: a hit returns the cached body without retrieval or write;
an empty-body read result is a miss and retrieval runs. -/
theorem c6_witness :
    prerender {} hbHit reqCrawler
      = (Outcome.ret (some "<html>"), ⟨false, false⟩)
    ∧ (prerender {} hbMiss reqCrawler).2.retrieverCalled = true :=
  ⟨(c6_cache_hit_short_circuits {} hbHit reqCrawler { body := "<html>" }
      rfl rfl).1 ⟨rfl, by decide⟩,
   (c6_cache_hit_short_circuits {} hbMiss reqCrawler { body := "" }
      rfl rfl).2 (Or.inr rfl)⟩

/-- C7: the retrieval component is total over thrown faults.  Its whole
body runs inside one try/catch, so by construction it returns a
RetrievalResult for every oracle behaviour; a rejecting fetch or body read
yields the error message with a null body, and a received response yields
its text with a null error, whatever the status code (the result does not
inspect it). -/
theorem c7_retrieval_total (cfg : Config) (req : Req)
    (fetchO : String → TopMap → Except JsError HttpResponse)
    (textO : HttpResponse → Except JsError String) :
    (∀ e, fetchO (buildApiUrl cfg req) (fetchOptions cfg req)
            = Except.error e →
      getPrerenderedPageResponse cfg req fetchO textO
        = { error := some e.message, body := none })
    ∧ (∀ resp e, fetchO (buildApiUrl cfg req) (fetchOptions cfg req)
            = Except.ok resp → textO resp = Except.error e →
      getPrerenderedPageResponse cfg req fetchO textO
        = { error := some e.message, body := none })
    ∧ (∀ resp t, fetchO (buildApiUrl cfg req) (fetchOptions cfg req)
            = Except.ok resp → textO resp = Except.ok t →
      getPrerenderedPageResponse cfg req fetchO textO
        = { error := none, body := some t }) := by
  refine ⟨fun e h => ?_, fun resp e h1 h2 => ?_, fun resp t h1 h2 => ?_⟩ <;>
    simp [getPrerenderedPageResponse, *]

/-- C7 witness: a status-500 upstream response is still a successful
retrieval carrying the body text. -/
theorem c7_witness :
    getPrerenderedPageResponse {} reqCrawler fetchOk500 textOkHtml
      = { error := none, body := some "<html>" } :=
  (c7_retrieval_total {} reqCrawler fetchOk500 textOkHtml).2.2
    { status := 500 } "<html>" rfl rfl

/-- C8: a configured zero-length whitelist rejects every request: the
every-pattern-fails test is vacuously true over zero elements, so the
classifier returns false whatever the rest of the request looks like. -/
theorem c8_empty_whitelist_rejects (cfg : Config) (req : Req)
    (h : cfg.whitelist = some []) :
    shouldShowPrerenderedPage cfg req = false := by
  unfold shouldShowPrerenderedPage
  rw [h]
  simp only [List.all_nil]
  split
  · rfl
  · split
    · rfl
    · split
      · rfl
      · split
        · rfl
        · simp

/-- C8 witness: the crawler request is eligible under the default
configuration yet rejected once the empty whitelist is configured. -/
theorem c8_witness :
    shouldShowPrerenderedPage {} reqCrawler = true
    ∧ shouldShowPrerenderedPage cfgEmptyWhitelist reqCrawler = false :=
  ⟨rfl, c8_empty_whitelist_rejects cfgEmptyWhitelist reqCrawler rfl⟩

/-- C9: for base http://svc the built upstream URL at the C9 request is the
base, an inserted separator, and the reconstructed original URL
https://host/a?b=1; and for any base already ending in a separator the
separator is omitted. -/
theorem c9_buildApiUrl_separator :
    buildApiUrl cfgSvc reqFwdHost = "http://svc/https://host/a?b=1"
    ∧ (∀ cfg req, strEndsWith cfg.prerenderServiceUrl "/" = true →
        buildApiUrl cfg req
          = cfg.prerenderServiceUrl ++ reconstructedUrl req) := by
  refine ⟨rfl, fun cfg req h => ?_⟩
  simp [buildApiUrl, h]

/-- C9 witness: with the trailing-separator base the separator is
omitted. -/
theorem c9_witness :
    buildApiUrl cfgSvcSlash reqFwdHost
      = "http://svc/" ++ reconstructedUrl reqFwdHost :=
  c9_buildApiUrl_separator.2 cfgSvcSlash reqFwdHost rfl

/-- C10: whatever the configured extra outbound-request options, the
options object handed to fetch carries method GET: the fixed method is
assigned last, so a configured method entry is always overridden. -/
theorem c10_method_always_GET (cfg : Config) (req : Req) :
    topGet (fetchOptions cfg req) "method" = some (TopVal.str "GET") := by
  simp [fetchOptions, topAssign, topGet_topSet_self]

end Prerender
